import Mathlib

/-!
Shallow embedding of `src/postbuild.py` (uLogger AXF upload client).

The program is a single Python file.  The mutable fields of
`AxfUploadClient` become the structure `ClientState`; the outcome of every
call into an external library (filesystem, paho-mqtt, requests, clock) is
supplied by an oracle record `Env`, one field per call site, so every
control path of the Python code is a branch of a total Lean function.
Python exceptions raised by a library call are modelled by the
`PyResult.raised` constructor; `except`-blocks of the source become the
matches that consume it.  Network-visible actions are recorded in a trace
of `Ev` events so that ordering claims can be stated.
-/

namespace UloggerUpload

/-- Outcome of a Python call that can raise: either a normal value or a
raised exception carrying its message.  `KeyboardInterrupt` (a
`BaseException`, not an `Exception`) is modelled separately in `RunEnd`
for the `main`-level model, since `except Exception` does not catch it. -/
inductive PyResult (α : Type) where
  | ok (a : α)
  | raised (e : String)
deriving DecidableEq, Repr

/-- A JSON reply payload as consumed by the client: the two fields the
code inspects, each `none` when the key is absent (`dict.get` /
`in`-test semantics of lines 254 and 259). -/
structure Payload where
  upload_id : Option Int
  presigned_url : Option String
deriving DecidableEq, Repr

/-- An inbound MQTT message as seen by `_on_message`: either its payload
fails to parse as JSON (`json.JSONDecodeError` path, line 117) or it
parses to a `Payload`. -/
inductive RawMsg where
  | malformed
  | wellFormed (p : Payload)
deriving DecidableEq, Repr

/-- Mutable fields of `AxfUploadClient` that the workflow reads or
writes: `upload_response` (line 60), the `threading.Event`
`received_response` (line 59, modelled by its set/unset flag),
`current_upload_id` (line 63), and whether `mqtt_client` is non-`None`
(line 58 / line 234's check). -/
structure ClientState where
  upload_response : Option Payload
  received_response : Bool
  current_upload_id : Option Int
  mqttActive : Bool
deriving DecidableEq, Repr

/-- HTTP response of `requests.put` as the code consumes it:
`status_code` and `text` (lines 180-184). -/
structure HttpResponse where
  status_code : Nat
  text : String
deriving DecidableEq, Repr

/-- Constructor-time configuration of `AxfUploadClient` plus the
`application_id` attribute set by `main` (lines 52-53, 385). -/
structure ClientCfg where
  customer_id : Int
  device_type : String
  application_id : Option Int
deriving DecidableEq, Repr

/-- Arguments of `upload_axf_file` (line 191): `uploadId = none` means the
caller passed no `upload_id`, and a timestamp is used instead. -/
structure UploadArgs where
  git_hash : String
  version_number : String
  uploadId : Option Int
  branch : Option String
deriving DecidableEq, Repr

/-- The request dict built at lines 218-226. -/
structure UploadRequest where
  upload_id : Int
  device_type : String
  git_hash : String
  version_number : String
  customer_id : Int
  application_id : Option Int
  branch : Option String
deriving DecidableEq, Repr

/-- Network-visible actions of one workflow attempt, in program order:
`register` is the wait registration (lines 228-231), `connect` the
`setup_mqtt_client` call (line 235), `subscribe` line 240, `publish` the
`mqtt_client.publish` call inside `publish_upload_request` (line 142),
and `transfer` the `requests.put` call (line 174). -/
inductive Ev where
  | register
  | connect
  | subscribe
  | publish
  | transfer
deriving DecidableEq, Repr

/-- The distinct failure exits of `upload_axf_file`, one per logged error
return (lines 210, 245, 250, 255, 260, 266) plus the catch-all
`except Exception` at line 271. -/
inductive FailReason where
  | fileNotFound
  | publishError
  | timeout
  | invalidReply
  | idMismatch
  | transferFailed
  | exc (e : String)
deriving DecidableEq, Repr

/-- Result of one `upload_axf_file` call: the returned boolean, the final
client state, the trace of network-visible actions, and which failure
exit was taken (`none` on success). -/
structure UploadOutcome where
  result : Bool
  finalState : ClientState
  trace : List Ev
  reason : Option FailReason
deriving DecidableEq, Repr

/-- Oracle for every external call of one workflow attempt: the
`os.path.exists` check (line 209), the clock (line 215), the outcome of
`setup_mqtt_client` (line 235), of `mqtt_client.subscribe` (line 240,
paho returns a result code), of `mqtt_client.publish` (line 142, a
result code or a raise), the inbound messages the background loop
delivers to `_on_message` during this attempt, and the outcomes of the
file read (line 170) and the `requests.put` (line 174). -/
structure Env where
  fileExists : Bool
  clockMs : Int
  setupResult : PyResult Unit
  subscribeResult : PyResult Int
  publishOutcome : PyResult Int
  arrivals : List RawMsg
  readFileResult : PyResult Unit
  putOutcome : PyResult HttpResponse
deriving DecidableEq, Repr

/-- paho's `mqtt.MQTT_ERR_SUCCESS`. -/
def MQTT_ERR_SUCCESS : Int := 0

/-- `AxfUploadClient._on_message` (lines 106-120): parse the payload as
JSON; on parse failure log and discard; on success store the payload in
`upload_response` and set the `received_response` event.  No comparison
against `current_upload_id` occurs. -/
def onMessage (s : ClientState) (msg : RawMsg) : ClientState :=
  match msg with
  | .malformed => s
  | .wellFormed p => { s with upload_response := some p, received_response := true }

/-- The background delivery loop: `_on_message` applied to each inbound
message in arrival order. -/
def deliverAll (s : ClientState) (msgs : List RawMsg) : ClientState :=
  msgs.foldl onMessage s

/-- Number of deliveries in `msgs` at which the `received_response` event
transitions from unset to set (a "signal" of the wait). -/
def signalCount : ClientState → List RawMsg → Nat
  | _, [] => 0
  | s, m :: ms =>
    let s' := onMessage s m
    (if s.received_response = false ∧ s'.received_response = true then 1 else 0)
      + signalCount s' ms

/-- Lines 228-231 of `upload_axf_file`: `received_response.clear()`,
`upload_response = None`, `current_upload_id = upload_id`. -/
def registerWait (s : ClientState) (uid : Int) : ClientState :=
  { s with received_response := false, upload_response := none,
           current_upload_id := some uid }

/-- Lines 218-226: build the request dict. -/
def mkUploadRequest (cfg : ClientCfg) (args : UploadArgs) (uid : Int) : UploadRequest :=
  ⟨uid, cfg.device_type, args.git_hash, args.version_number,
   cfg.customer_id, cfg.application_id, args.branch⟩

/-- `AxfUploadClient.publish_upload_request` (lines 126-153): publish and
return `True` iff the result code is `MQTT_ERR_SUCCESS`; a raise inside
is caught there and yields `False`. -/
def publishUploadRequest (env : Env) (_req : UploadRequest) : Bool :=
  match env.publishOutcome with
  | .raised _ => false
  | .ok rc => if rc = MQTT_ERR_SUCCESS then true else false

/-- `AxfUploadClient.upload_file_to_s3` (lines 155-189): read the file
(a raise is caught, returning `False` before any PUT), issue the PUT,
succeed iff the status code is 200, otherwise capture `(status, body)`
for the diagnostic log line 184.  Second component is the captured
diagnostic, third the emitted trace. -/
def uploadFileToS3 (env : Env) : Bool × Option (Nat × String) × List Ev :=
  match env.readFileResult with
  | .raised _ => (false, none, [])
  | .ok _ =>
    match env.putOutcome with
    | .raised _ => (false, none, [Ev.transfer])
    | .ok r =>
      if r.status_code = 200 then (true, none, [Ev.transfer])
      else (false, some (r.status_code, r.text), [Ev.transfer])

/-- Lines 238-269 of `upload_axf_file`, entered with the wait already
registered: subscribe (result code unchecked; a raise falls through to
the catch-all), publish, wait for the event (modelled by folding the
attempt's arrivals and reading the flag), validate the stored response
(`presigned_url` presence, then `upload_id` equality), and transfer.
`t0` is the trace accumulated by the optional connect step. -/
def uploadAfterSetup (env : Env) (req : UploadRequest) (uid : Int)
    (s2 : ClientState) (t0 : List Ev) : UploadOutcome :=
  match env.subscribeResult with
  | .raised e => ⟨false, s2, t0 ++ [Ev.subscribe], some (FailReason.exc e)⟩
  | .ok _ =>
    if publishUploadRequest env req = false then
      ⟨false, s2, t0 ++ [Ev.subscribe, Ev.publish], some FailReason.publishError⟩
    else
      let s3 := deliverAll s2 env.arrivals
      if s3.received_response = false then
        ⟨false, s3, t0 ++ [Ev.subscribe, Ev.publish], some FailReason.timeout⟩
      else
        match s3.upload_response with
        | none => ⟨false, s3, t0 ++ [Ev.subscribe, Ev.publish], some FailReason.invalidReply⟩
        | some p =>
          if p.presigned_url.isNone then
            ⟨false, s3, t0 ++ [Ev.subscribe, Ev.publish], some FailReason.invalidReply⟩
          else if p.upload_id ≠ some uid then
            ⟨false, s3, t0 ++ [Ev.subscribe, Ev.publish], some FailReason.idMismatch⟩
          else
            match uploadFileToS3 env with
            | (true, _, tt) => ⟨true, s3, t0 ++ [Ev.subscribe, Ev.publish] ++ tt, none⟩
            | (false, _, tt) =>
              ⟨false, s3, t0 ++ [Ev.subscribe, Ev.publish] ++ tt, some FailReason.transferFailed⟩

/-- Lines 233-236 of `upload_axf_file`: if `mqtt_client is None`, call
`setup_mqtt_client` (a raise there propagates to the catch-all, line
271, returning `False`), then continue with the subscribed phase. -/
def uploadAfterRegister (env : Env) (req : UploadRequest) (uid : Int)
    (s1 : ClientState) : UploadOutcome :=
  if s1.mqttActive = false then
    match env.setupResult with
    | .raised e => ⟨false, s1, [Ev.connect], some (FailReason.exc e)⟩
    | .ok _ => uploadAfterSetup env req uid { s1 with mqttActive := true } [Ev.connect]
  else
    uploadAfterSetup env req uid s1 []

/-- `AxfUploadClient.upload_axf_file` (lines 191-273): check the file
exists (line 209), resolve the upload id (line 215), build the request,
register the wait (lines 228-231), then run the networked phase. -/
def uploadAxfFile (cfg : ClientCfg) (args : UploadArgs) (env : Env)
    (s : ClientState) : UploadOutcome :=
  if env.fileExists = false then
    ⟨false, s, [], some FailReason.fileNotFound⟩
  else
    let uid := args.uploadId.getD env.clockMs
    let req := mkUploadRequest cfg args uid
    let s1 := registerWait s uid
    let rest := uploadAfterRegister env req uid s1
    ⟨rest.result, rest.finalState, Ev.register :: rest.trace, rest.reason⟩

/-- How the `try`-block of `main` around `client.upload_axf_file` ends
(lines 392-412): a normal boolean return, a `KeyboardInterrupt` (caught
at line 409, which Python's `except Exception` inside
`upload_axf_file` does not intercept), or another unexpected
exception (caught at line 411). -/
inductive RunEnd where
  | success
  | failure
  | interrupted
  | unexpectedError
deriving DecidableEq, Repr

/-- Inputs of the `main`-level cleanup model: whether inline PEM data led
to the creation of an ephemeral certificate / key file (lines 360-374),
and how the upload run ended. -/
structure MainEnv where
  tempCertCreated : Bool
  tempKeyCreated : Bool
  runEnd : RunEnd
deriving DecidableEq, Repr

/-- Observable cleanup effects at process exit: whether
`loop_stop`/`disconnect` ran (lines 278-279) and whether each ephemeral
credential file created from inline PEM data was removed. -/
structure MainState where
  sessionTornDown : Bool
  tempCertRemoved : Bool
  tempKeyRemoved : Bool
deriving DecidableEq, Repr

/-- `AxfUploadClient.cleanup` (lines 275-295): stop the loop, disconnect,
and unlink each temporary credential file that was created. -/
def clientCleanup (st : MainState) (env : MainEnv) : MainState :=
  { st with sessionTornDown := true,
            tempCertRemoved := st.tempCertRemoved || env.tempCertCreated,
            tempKeyRemoved := st.tempKeyRemoved || env.tempKeyCreated }

/-- The `finally` block of `main` (lines 413-427): unlink each temporary
credential file that was created and still exists; the MQTT session is
not touched here. -/
def finallyCleanup (st : MainState) (env : MainEnv) : MainState :=
  { st with tempCertRemoved := st.tempCertRemoved || env.tempCertCreated,
            tempKeyRemoved := st.tempKeyRemoved || env.tempKeyCreated }

/-- Exit-path model of `main` (lines 359-427): on a normal return of
`upload_axf_file` (success or failure) `client.cleanup()` runs (line
407) and then the `finally` block; on `KeyboardInterrupt` or an
unexpected exception, the handlers at lines 409-412 only log, so only
the `finally` block runs. -/
def mainRun (env : MainEnv) : MainState :=
  let st0 : MainState := ⟨false, false, false⟩
  let st1 :=
    match env.runEnd with
    | RunEnd.success => clientCleanup st0 env
    | RunEnd.failure => clientCleanup st0 env
    | RunEnd.interrupted => st0
    | RunEnd.unexpectedError => st0
  finallyCleanup st1 env

/-! Concrete sample values used by witnesses and counterexamples. -/

/-- Sample client configuration. -/
def cfgA : ClientCfg := ⟨42, "uLogX", some 5⟩

/-- Sample arguments with an explicit upload id 7. -/
def argsA : UploadArgs := ⟨"abc123", "1.0.0", some 7, some "main"⟩

/-- Client state with the MQTT client already set up. -/
def stActive : ClientState := ⟨none, false, none, true⟩

/-- Client state before any MQTT setup. -/
def stFresh : ClientState := ⟨none, false, none, false⟩

/-- A well-formed reply matching upload id 7. -/
def replyOk : Payload := ⟨some 7, some "https://bucket/put"⟩

/-- A reply for id 7 with no `presigned_url` key. -/
def replyNoUrl : Payload := ⟨some 7, none⟩

/-- A reply carrying upload id 8 (mismatching the sent id 7). -/
def replyWrongId : Payload := ⟨some 8, some "https://bucket/put"⟩

/-- Oracle of a fully successful attempt. -/
def envHappy : Env :=
  ⟨true, 0, PyResult.ok (), PyResult.ok 0, PyResult.ok 0,
   [RawMsg.wellFormed replyOk], PyResult.ok (), PyResult.ok ⟨200, "ok"⟩⟩

/-- Successful attempt except the reply lacks `presigned_url`. -/
def envNoUrl : Env := { envHappy with arrivals := [RawMsg.wellFormed replyNoUrl] }

/-- Successful attempt except the reply carries the wrong upload id. -/
def envWrongId : Env := { envHappy with arrivals := [RawMsg.wellFormed replyWrongId] }

/-- Attempt whose subscribe call raises. -/
def envSubRaise : Env := { envHappy with subscribeResult := PyResult.raised "no conn" }

/-- Attempt whose subscribe call returns the failure code 4
(`MQTT_ERR_NO_CONN`) instead of raising. -/
def envSubRcFail : Env := { envHappy with subscribeResult := PyResult.ok 4 }

/-- Attempt whose `setup_mqtt_client` raises. -/
def envSetupRaise : Env := { envHappy with setupResult := PyResult.raised "tls failure" }

/-- Attempt whose source file does not exist. -/
def envNoFile : Env := { envHappy with fileExists := false }

/-- Attempt in which no reply ever arrives. -/
def envQuiet : Env := { envHappy with arrivals := [] }

/-- Attempt whose PUT returns status 500 with body text. -/
def envPut500 : Env := { envHappy with putOutcome := PyResult.ok ⟨500, "err body"⟩ }

/-! Helper lemmas shared between claims. -/

/-- Any payload stored after a run of the delivery loop either was
already stored beforehand or arrived as a well-formed message of the
run. -/
lemma deliverAll_response_provenance :
    ∀ (msgs : List RawMsg) (s : ClientState) (p : Payload),
      (deliverAll s msgs).upload_response = some p →
      s.upload_response = some p ∨ RawMsg.wellFormed p ∈ msgs := by
  intro msgs
  induction msgs with
  | nil => intro s p h; exact Or.inl h
  | cons m ms ih =>
    intro s p h
    cases m with
    | malformed =>
      have h' : (deliverAll (onMessage s RawMsg.malformed) ms).upload_response = some p := h
      rcases ih _ p h' with hl | hr
      · exact Or.inl hl
      · exact Or.inr (List.mem_cons_of_mem _ hr)
    | wellFormed q =>
      have h' : (deliverAll (onMessage s (RawMsg.wellFormed q)) ms).upload_response = some p := h
      rcases ih _ p h' with hl | hr
      · have hq : q = p := by
          simpa [onMessage] using hl
        subst hq
        exact Or.inr (List.mem_cons_self _ _)
      · exact Or.inr (List.mem_cons_of_mem _ hr)

/-- When the source file exists, the trace of the attempt starts with the
wait registration. -/
lemma uploadAxfFile_trace_cons (cfg : ClientCfg) (args : UploadArgs) (env : Env)
    (s : ClientState) (hf : env.fileExists = true) :
    ∃ t, (uploadAxfFile cfg args env s).trace = Ev.register :: t := by
  unfold uploadAxfFile
  simp [hf]

/-- When the source file is missing, the workflow returns `False`
immediately: the state is untouched and no network-visible action
occurs. -/
lemma uploadAxfFile_fileMissing (cfg : ClientCfg) (args : UploadArgs) (env : Env)
    (s : ClientState) (hf : env.fileExists = false) :
    uploadAxfFile cfg args env s = ⟨false, s, [], some FailReason.fileNotFound⟩ := by
  unfold uploadAxfFile
  simp [hf]

/-- Projection fact: registering the wait does not touch the MQTT client
handle. -/
lemma registerWait_mqttActive (s : ClientState) (uid : Int) :
    (registerWait s uid).mqttActive = s.mqttActive := rfl

/-- The final state of the subscribed phase is either the state it was
entered with or that state after the delivery loop ran. -/
lemma uploadAfterSetup_finalState (env : Env) (req : UploadRequest) (uid : Int)
    (s2 : ClientState) (t0 : List Ev) :
    (uploadAfterSetup env req uid s2 t0).finalState = s2
    ∨ (uploadAfterSetup env req uid s2 t0).finalState = deliverAll s2 env.arrivals := by
  unfold uploadAfterSetup
  repeat' split
  all_goals simp_all
  all_goals repeat' split
  all_goals simp

/-- If the subscribed phase is entered with no stored response, any
response stored at its exit arrived as a well-formed message of this
attempt. -/
lemma uploadAfterSetup_response_provenance (env : Env) (req : UploadRequest)
    (uid : Int) (s2 : ClientState) (t0 : List Ev) (p : Payload)
    (hnone : s2.upload_response = none)
    (h : (uploadAfterSetup env req uid s2 t0).finalState.upload_response = some p) :
    RawMsg.wellFormed p ∈ env.arrivals := by
  rcases uploadAfterSetup_finalState env req uid s2 t0 with hfs | hfs
  · rw [hfs, hnone] at h
    cases h
  · rw [hfs] at h
    rcases deliverAll_response_provenance env.arrivals s2 p h with hl | hr
    · rw [hnone] at hl
      cases hl
    · exact hr

/-- Same provenance fact lifted over the optional connect step. -/
lemma uploadAfterRegister_response_provenance (env : Env) (req : UploadRequest)
    (uid : Int) (s1 : ClientState) (p : Payload)
    (hnone : s1.upload_response = none)
    (h : (uploadAfterRegister env req uid s1).finalState.upload_response = some p) :
    RawMsg.wellFormed p ∈ env.arrivals := by
  unfold uploadAfterRegister at h
  by_cases hma : s1.mqttActive = false
  · rw [if_pos hma] at h
    cases hst : env.setupResult with
    | raised e =>
      rw [hst] at h
      rw [hnone] at h
      cases h
    | ok u =>
      rw [hst] at h
      exact uploadAfterSetup_response_provenance env req uid
        { s1 with mqttActive := true } [Ev.connect] p hnone h
  · rw [if_neg hma] at h
    exact uploadAfterSetup_response_provenance env req uid s1 [] p hnone h

/-- With the subscribe call returning normally (any result code), every
path of the subscribed phase publishes the request. -/
lemma publish_mem_uploadAfterSetup (env : Env) (req : UploadRequest) (uid : Int)
    (s2 : ClientState) (t0 : List Ev) (rc : Int)
    (h : env.subscribeResult = PyResult.ok rc) :
    Ev.publish ∈ (uploadAfterSetup env req uid s2 t0).trace := by
  unfold uploadAfterSetup
  rw [h]
  repeat' split
  all_goals simp_all [List.mem_append]
  all_goals repeat' split
  all_goals simp [List.mem_append]

/-- The boolean result of the subscribed phase is `true` exactly when no
failure reason was recorded. -/
lemma uploadAfterSetup_result_iff (env : Env) (req : UploadRequest) (uid : Int)
    (s2 : ClientState) (t0 : List Ev) :
    (uploadAfterSetup env req uid s2 t0).result = true
      ↔ (uploadAfterSetup env req uid s2 t0).reason = none := by
  unfold uploadAfterSetup
  repeat' split
  all_goals simp_all
  all_goals repeat' split
  all_goals simp

/-- The boolean result of the whole post-registration phase is `true`
exactly when no failure reason was recorded. -/
lemma uploadAfterRegister_result_iff (env : Env) (req : UploadRequest) (uid : Int)
    (s1 : ClientState) :
    (uploadAfterRegister env req uid s1).result = true
      ↔ (uploadAfterRegister env req uid s1).reason = none := by
  unfold uploadAfterRegister
  by_cases hma : s1.mqttActive = false
  · rw [if_pos hma]
    cases hst : env.setupResult with
    | raised e => simp
    | ok u => exact uploadAfterSetup_result_iff env req uid _ _
  · rw [if_neg hma]
    exact uploadAfterSetup_result_iff env req uid _ _

/-! Claim theorems. -/

/-- C1 (counterexample): with the current attempt registered on upload
id 2, a well-formed reply tagged with id 1 is not discarded — the
callback stores it and signals the wait, contradicting the claim that a
message whose identifier does not match the registered wait is discarded
without signaling. -/
theorem c1_counterexample :
    (onMessage ⟨none, false, some 2, true⟩
        (RawMsg.wellFormed ⟨some 1, some "u"⟩)).received_response = true
    ∧ (onMessage ⟨none, false, some 2, true⟩
        (RawMsg.wellFormed ⟨some 1, some "u"⟩)).upload_response = some ⟨some 1, some "u"⟩
    ∧ (⟨none, false, some 2, true⟩ : ClientState).current_upload_id = some 2
    ∧ some (1 : Int) ≠ some (2 : Int) := by
  refine ⟨rfl, rfl, rfl, by decide⟩

/-- C1 (amended): the message callback performs no correlation check at
all — every message that parses as JSON is stored as the response and
signals the wait, regardless of its embedded identifier and of the
registered `current_upload_id`; only a message that fails to parse is
discarded, silently and without signaling. -/
theorem c1_callback_unconditional :
    ∀ (s : ClientState) (p : Payload),
      (onMessage s (RawMsg.wellFormed p)).upload_response = some p
      ∧ (onMessage s (RawMsg.wellFormed p)).received_response = true
      ∧ (onMessage s (RawMsg.wellFormed p)).current_upload_id = s.current_upload_id
      ∧ onMessage s RawMsg.malformed = s := by
  intro s p
  exact ⟨rfl, rfl, rfl, rfl⟩

/-- C4: delivering the identical well-formed reply twice is idempotent —
the second delivery leaves the state exactly as after the first, so the
stored result the waiter observes is unchanged, and across the two
deliveries the wait's event transitions from unset to set at most
once. -/
theorem c4_double_delivery_idempotent :
    ∀ (s : ClientState) (p : Payload),
      onMessage (onMessage s (RawMsg.wellFormed p)) (RawMsg.wellFormed p)
        = onMessage s (RawMsg.wellFormed p)
      ∧ signalCount s [RawMsg.wellFormed p, RawMsg.wellFormed p] ≤ 1 := by
  intro s p
  constructor
  · rfl
  · cases hr : s.received_response <;> simp [signalCount, onMessage, hr]

/-- C5 (evaluation at the failing input): when the upload run ends in a
`KeyboardInterrupt` with both ephemeral credential files created, `main`
removes the two temporary files (its `finally` block) but never calls
`client.cleanup()`, so the MQTT delivery loop is not stopped and the
client is not disconnected — while on a normal success exit the session
teardown does run. -/
theorem c5_interrupt_skips_teardown :
    mainRun ⟨true, true, RunEnd.interrupted⟩
      = ⟨false, true, true⟩
    ∧ (mainRun ⟨true, true, RunEnd.success⟩).sessionTornDown = true
    ∧ (mainRun ⟨true, true, RunEnd.unexpectedError⟩).sessionTornDown = false := by
  refine ⟨rfl, rfl, rfl⟩

/-- C7: the bulk transfer returns `True` iff the file read succeeded and
the PUT returned status code exactly 200; and whenever the PUT returns
any other status code, the result is `False` with the status code and
response body text captured as the diagnostic. -/
theorem c7_transfer_status :
    ∀ env : Env,
      ((uploadFileToS3 env).1 = true ↔
        (env.readFileResult = PyResult.ok ()
          ∧ ∃ r, env.putOutcome = PyResult.ok r ∧ r.status_code = 200))
      ∧ (∀ r : HttpResponse,
          env.readFileResult = PyResult.ok () →
          env.putOutcome = PyResult.ok r →
          r.status_code ≠ 200 →
          uploadFileToS3 env = (false, some (r.status_code, r.text), [Ev.transfer])) := by
  intro env
  constructor
  · cases hrf : env.readFileResult with
    | raised e => simp [uploadFileToS3, hrf]
    | ok u =>
      cases u
      cases hput : env.putOutcome with
      | raised e => simp [uploadFileToS3, hrf, hput]
      | ok r =>
        by_cases h200 : r.status_code = 200
        · simp [uploadFileToS3, hrf, hput, h200]
        · simp [uploadFileToS3, hrf, hput, h200]
  · intro r hrf hput h200
    simp [uploadFileToS3, hrf, hput, h200]

/-- C7 (witness): a PUT returning status 500 with body "err body" yields
a failed transfer carrying exactly that diagnostic. -/
theorem c7_transfer_status_witness :
    uploadFileToS3 envPut500 = (false, some (500, "err body"), [Ev.transfer]) :=
  (c7_transfer_status envPut500).2 ⟨500, "err body"⟩ rfl rfl (by decide)

/-- C8: when the source file does not exist, the workflow returns
failure at once with the file-not-found reason, the client state is left
untouched, and the trace is empty — no connect, subscribe, publish, or
transfer happens. -/
theorem c8_file_checked_first :
    ∀ (cfg : ClientCfg) (args : UploadArgs) (env : Env) (s : ClientState),
      env.fileExists = false →
      uploadAxfFile cfg args env s = ⟨false, s, [], some FailReason.fileNotFound⟩ := by
  intro cfg args env s hf
  exact uploadAxfFile_fileMissing cfg args env s hf

/-- C8 (witness): concrete run with a missing file. -/
theorem c8_file_checked_first_witness :
    uploadAxfFile cfgA argsA envNoFile stActive
      = ⟨false, stActive, [], some FailReason.fileNotFound⟩ :=
  c8_file_checked_first cfgA argsA envNoFile stActive rfl

/-- C2: in every execution of the workflow, any publish of the upload
request is preceded in the trace by the wait registration (clearing the
event, resetting the stored response, recording the upload id): no
publish happens with the wait unregistered. -/
theorem c2_register_before_publish :
    ∀ (cfg : ClientCfg) (args : UploadArgs) (env : Env) (s : ClientState) (i : Nat),
      (uploadAxfFile cfg args env s).trace.get? i = some Ev.publish →
      ∃ j, j < i ∧ (uploadAxfFile cfg args env s).trace.get? j = some Ev.register := by
  intro cfg args env s i h
  cases hfb : env.fileExists with
  | false =>
    rw [uploadAxfFile_fileMissing cfg args env s hfb] at h
    simp at h
  | true =>
    obtain ⟨t, ht⟩ := uploadAxfFile_trace_cons cfg args env s hfb
    rw [ht] at h
    refine ⟨0, ?_, ?_⟩
    · cases i with
      | zero => simp at h
      | succ n => exact Nat.succ_pos n
    · rw [ht]
      rfl

/-- C2 (witness): in a run that publishes (its trace is registration,
subscribe, publish), the publish at index 2 is preceded by the
registration. -/
theorem c2_register_before_publish_witness :
    ∃ j, j < 2 ∧ (uploadAxfFile cfgA argsA envQuiet stActive).trace.get? j
      = some Ev.register :=
  c2_register_before_publish cfgA argsA envQuiet stActive 2 (by decide)

/-- C3: when a reply is received within the timeout, the workflow
validates it before any transfer: a reply without the `presigned_url`
field yields failure with the invalid-reply reason, and a reply carrying
a `presigned_url` but an `upload_id` different from the one sent yields
failure with the id-mismatch reason; in both cases no PUT transfer is
ever issued. -/
theorem c3_reply_validation :
    ∀ (cfg : ClientCfg) (args : UploadArgs) (env : Env) (s : ClientState) (p : Payload),
      env.fileExists = true →
      (s.mqttActive = true ∨ env.setupResult = PyResult.ok ()) →
      (∃ rc, env.subscribeResult = PyResult.ok rc) →
      env.publishOutcome = PyResult.ok 0 →
      env.arrivals = [RawMsg.wellFormed p] →
      ((p.presigned_url = none →
          (uploadAxfFile cfg args env s).result = false
          ∧ (uploadAxfFile cfg args env s).reason = some FailReason.invalidReply
          ∧ Ev.transfer ∉ (uploadAxfFile cfg args env s).trace)
       ∧ (∀ u : String, p.presigned_url = some u →
          p.upload_id ≠ some (args.uploadId.getD env.clockMs) →
          (uploadAxfFile cfg args env s).result = false
          ∧ (uploadAxfFile cfg args env s).reason = some FailReason.idMismatch
          ∧ Ev.transfer ∉ (uploadAxfFile cfg args env s).trace)) := by
  intro cfg args env s p hf hsu hsub hpub harr
  obtain ⟨rc, hrc⟩ := hsub
  constructor
  · intro hurl
    by_cases hma : s.mqttActive = false
    · rcases hsu with hmt | hso
      · rw [hmt] at hma
        exact absurd hma (by decide)
      · simp [uploadAxfFile, uploadAfterRegister, uploadAfterSetup, publishUploadRequest,
              registerWait, deliverAll, onMessage, MQTT_ERR_SUCCESS,
              hf, hrc, hpub, harr, hurl, hma, hso]
    · simp [uploadAxfFile, uploadAfterRegister, uploadAfterSetup, publishUploadRequest,
            registerWait, deliverAll, onMessage, MQTT_ERR_SUCCESS,
            hf, hrc, hpub, harr, hurl, hma]
  · intro u hu hid
    by_cases hma : s.mqttActive = false
    · rcases hsu with hmt | hso
      · rw [hmt] at hma
        exact absurd hma (by decide)
      · simp [uploadAxfFile, uploadAfterRegister, uploadAfterSetup, publishUploadRequest,
              registerWait, deliverAll, onMessage, MQTT_ERR_SUCCESS,
              hf, hrc, hpub, harr, hu, hid, hma, hso]
    · simp [uploadAxfFile, uploadAfterRegister, uploadAfterSetup, publishUploadRequest,
            registerWait, deliverAll, onMessage, MQTT_ERR_SUCCESS,
            hf, hrc, hpub, harr, hu, hid, hma]

/-- C3 (witness): a reply for id 7 with no `presigned_url` aborts the
concrete run with the invalid-reply reason and no transfer. -/
theorem c3_reply_validation_witness :
    (uploadAxfFile cfgA argsA envNoUrl stActive).result = false
    ∧ (uploadAxfFile cfgA argsA envNoUrl stActive).reason = some FailReason.invalidReply
    ∧ Ev.transfer ∉ (uploadAxfFile cfgA argsA envNoUrl stActive).trace :=
  (c3_reply_validation cfgA argsA envNoUrl stActive replyNoUrl rfl (Or.inl rfl)
    ⟨0, rfl⟩ rfl rfl).1 rfl

/-- C6 (counterexample): with `subscribe` returning the failure code 4
(`MQTT_ERR_NO_CONN`) — which the code never checks — the workflow does
not abort: it proceeds to publish and, the rest of the run going well,
even returns overall success, contradicting the claim that a subscribe
failure aborts with a subscribe-error outcome before any publish. -/
theorem c6_counterexample :
    (uploadAxfFile cfgA argsA envSubRcFail stActive).result = true
    ∧ Ev.publish ∈ (uploadAxfFile cfgA argsA envSubRcFail stActive).trace
    ∧ envSubRcFail.subscribeResult = PyResult.ok 4
    ∧ (4 : Int) ≠ MQTT_ERR_SUCCESS := by
  refine ⟨rfl, by decide, rfl, by decide⟩

/-- C6 (amended): only a subscribe failure that raises an exception
aborts the attempt (through the catch-all) before any publish; the
result code of the subscribe call is never inspected, so a subscribe
failure reported via its result code does not abort, and the workflow
publishes the request regardless of that code. -/
theorem c6_subscribe_amended :
    ∀ (cfg : ClientCfg) (args : UploadArgs) (env : Env) (s : ClientState),
      env.fileExists = true →
      s.mqttActive = true →
      ((∀ e, env.subscribeResult = PyResult.raised e →
          (uploadAxfFile cfg args env s).result = false
          ∧ (uploadAxfFile cfg args env s).reason = some (FailReason.exc e)
          ∧ Ev.publish ∉ (uploadAxfFile cfg args env s).trace)
       ∧ (∀ rc : Int, env.subscribeResult = PyResult.ok rc →
          Ev.publish ∈ (uploadAxfFile cfg args env s).trace)) := by
  intro cfg args env s hf hma
  constructor
  · intro e he
    simp [uploadAxfFile, uploadAfterRegister, uploadAfterSetup, registerWait_mqttActive,
          registerWait, hf, hma, he]
  · intro rc hrc
    unfold uploadAxfFile uploadAfterRegister
    rw [if_neg (by rw [hf]; decide)]
    simp [registerWait, hma, List.mem_cons]
    exact publish_mem_uploadAfterSetup env _ _ _ _ rc hrc

/-- C6 (amended, witness): a raising subscribe call on a concrete run
returns failure with the exception reason and no publish occurs. -/
theorem c6_subscribe_amended_witness :
    (uploadAxfFile cfgA argsA envSubRaise stActive).result = false
    ∧ (uploadAxfFile cfgA argsA envSubRaise stActive).reason
        = some (FailReason.exc "no conn")
    ∧ Ev.publish ∉ (uploadAxfFile cfgA argsA envSubRaise stActive).trace :=
  (c6_subscribe_amended cfgA argsA envSubRaise stActive rfl rfl).1 "no conn" rfl

/-- C9: the workflow exposes a single boolean outcome — it returns
`true` exactly when no failure reason was recorded (full success), and
every sub-step failure, including a raised exception absorbed by the
catch-all, yields `false`; no partial-success outcome exists. -/
theorem c9_single_boolean_outcome :
    ∀ (cfg : ClientCfg) (args : UploadArgs) (env : Env) (s : ClientState),
      ((uploadAxfFile cfg args env s).result = true
        ↔ (uploadAxfFile cfg args env s).reason = none)
      ∧ (∀ e, (uploadAxfFile cfg args env s).reason = some (FailReason.exc e) →
          (uploadAxfFile cfg args env s).result = false) := by
  intro cfg args env s
  have hiff : (uploadAxfFile cfg args env s).result = true
      ↔ (uploadAxfFile cfg args env s).reason = none := by
    unfold uploadAxfFile
    by_cases hf : env.fileExists = false
    · simp [hf]
    · rw [if_neg hf]
      exact uploadAfterRegister_result_iff env _ _ _
  refine ⟨hiff, ?_⟩
  intro e he
  cases hres : (uploadAxfFile cfg args env s).result with
  | false => rfl
  | true =>
    rw [hiff.mp hres] at he
    cases he

/-- C9 (witness): a run whose MQTT setup raises returns `false` through
the catch-all rather than propagating the exception. -/
theorem c9_single_boolean_outcome_witness :
    (uploadAxfFile cfgA argsA envSetupRaise stFresh).result = false :=
  (c9_single_boolean_outcome cfgA argsA envSetupRaise stFresh).2 "tls failure" rfl

/-- C10: whenever the file check passes, the first action of the attempt
is the wait registration (clearing the event and resetting the stored
response, before subscribe and publish), and consequently any response
stored at the end of the attempt arrived as a well-formed message
delivered during this attempt — a response stored before the call began
can never be the attempt's result. -/
theorem c10_fresh_response :
    ∀ (cfg : ClientCfg) (args : UploadArgs) (env : Env) (s : ClientState),
      env.fileExists = true →
      ((uploadAxfFile cfg args env s).trace.get? 0 = some Ev.register
       ∧ ∀ p : Payload,
          (uploadAxfFile cfg args env s).finalState.upload_response = some p →
          RawMsg.wellFormed p ∈ env.arrivals) := by
  intro cfg args env s hf
  constructor
  · obtain ⟨t, ht⟩ := uploadAxfFile_trace_cons cfg args env s hf
    rw [ht]
    rfl
  · intro p hp
    have hfin : (uploadAxfFile cfg args env s).finalState
        = (uploadAfterRegister env
            (mkUploadRequest cfg args (args.uploadId.getD env.clockMs))
            (args.uploadId.getD env.clockMs)
            (registerWait s (args.uploadId.getD env.clockMs))).finalState := by
      unfold uploadAxfFile
      rw [if_neg (by rw [hf]; decide)]
    rw [hfin] at hp
    exact uploadAfterRegister_response_provenance env _ _ _ p rfl hp

/-- C10 (witness): on the fully successful concrete run the stored
response is the reply that arrived during the attempt. -/
theorem c10_fresh_response_witness :
    RawMsg.wellFormed replyOk ∈ envHappy.arrivals :=
  (c10_fresh_response cfgA argsA envHappy stActive rfl).2 replyOk rfl

end UloggerUpload
